import Mathlib

/-!
Verification of the weaver-backend scrape orchestration engine.

The Python/JavaScript code of the repository is shallowly embedded:
pure page-analysis code (the JavaScript evaluated in the browser and the
Python post-processing) becomes Lean functions over an abstract DOM, and
the effectful orchestration (browser lifecycle, navigation retries, the
job tracker) becomes functions from an explicit environment describing
the outcomes of the external operations (which page loads succeed, what
each page contains) to result values and event traces.

String primitives are re-implemented over lists of characters so that
every definition evaluates inside the kernel; they mirror the JavaScript
and Python operations used by the source (substring test for
String.prototype.includes and the in operator, ASCII lowercasing for
toLowerCase, split at every space character for split with a space
separator, prefix test for startswith).
-/

/-- Boolean prefix test on character lists (models str.startswith and is the
core of the substring test). -/
def prefixOfList : List Char → List Char → Bool
  | [], _ => true
  | _ :: _, [] => false
  | a :: as, b :: bs => a == b && prefixOfList as bs

/-- Boolean substring test on character lists: pat occurs contiguously in the
second list (models JavaScript url.includes(pat) and Python pat in url). -/
def infixOfList (pat : List Char) : List Char → Bool
  | [] => pat.isEmpty
  | c :: cs => prefixOfList pat (c :: cs) || infixOfList pat cs

/-- Substring test on strings. -/
def strContains (s pat : String) : Bool :=
  infixOfList pat.data s.data

/-- Prefix test on strings (Python str.startswith). -/
def strStartsWith (s pat : String) : Bool :=
  prefixOfList pat.data s.data

/-- Emptiness of a string, via its character list (models JavaScript
falsiness of the empty string and Python truthiness checks). -/
def strIsEmpty (s : String) : Bool :=
  s.data.isEmpty

/-- ASCII lowercasing of a character list (models toLowerCase on the ASCII
strings the scraper handles). -/
def lowerList (l : List Char) : List Char :=
  l.map Char.toLower

/-- Split a character list at every character satisfying p; consecutive
separators produce empty tokens and the empty list yields one empty token,
exactly as JavaScript String.prototype.split with a one-character separator. -/
def splitAtPred (p : Char → Bool) : List Char → List (List Char)
  | [] => [[]]
  | c :: cs =>
    if p c then [] :: splitAtPred p cs
    else
      match splitAtPred p cs with
      | [] => [[c]]
      | t :: ts => (c :: t) :: ts

/-- Helper of dedupFirst: keep each element not seen before, remembering the
elements already emitted. -/
def dedupFirstAux (seen : List String) : List String → List String
  | [] => []
  | u :: us =>
    if seen.contains u then dedupFirstAux seen us
    else u :: dedupFirstAux (u :: seen) us

/-- First-occurrence deduplication, the semantics of a JavaScript Set built
from a list (and, up to element order which Python leaves unspecified for
list(set(xs)), of the deduplication in scrape_job_listings). -/
def dedupFirst (l : List String) : List String :=
  dedupFirstAux [] l

/-- Application configuration, src/app/config.py: the retry and delay
settings the scraping engine reads.  RETRY_DELAY is the 2.0-second base
delay, represented in whole seconds. -/
structure Config where
  MAX_RETRIES : Nat
  RETRY_DELAY : Nat
  REQUEST_DELAY : Nat
deriving DecidableEq, Repr

/-- The development/testing default configuration (config.py lines 22-24). -/
def developmentConfig : Config := ⟨3, 2, 1⟩

/-- ProductionConfig overrides MAX_RETRIES to 5 (config.py line 108). -/
def productionConfig : Config := ⟨5, 2, 1⟩

/-- Observable behaviour of one run of a retrying loop: how many attempts
were started, the sleeps performed between attempts (in seconds), and
whether the final failure was re-raised to the caller. -/
structure RetryTrace where
  attempts : Nat
  delays : List Nat
  raised : Bool
deriving DecidableEq, Repr

/-- The constant delay slept between navigation attempts:
await asyncio.sleep(2) in scraper.py lines 122 and 317. -/
def navRetryDelay : Nat := 2

/-- The hardcoded attempt bound of the navigation loops:
max_retries = 3 in scraper.py lines 112 and 307. -/
def scraperMaxRetries : Nat := 3

/-- The navigation retry loop of scrape_job_details and extract_linkedin_urls
(scraper.py lines 113-122 and 308-317): for attempt in range(max_retries),
try page.goto and break on success; on TimeoutError re-raise if this was the
last attempt, otherwise sleep 2 seconds and try again.  The parameter ok
tells which attempt indices would succeed; the first argument is the current
attempt index, the second the number of loop iterations left. -/
def navigateAttempts (ok : Nat → Bool) : Nat → Nat → RetryTrace
  | _, 0 => ⟨0, [], false⟩
  | attempt, remaining + 1 =>
    if ok attempt then ⟨1, [], false⟩
    else if remaining = 0 then ⟨1, [], true⟩
    else
      let r := navigateAttempts ok (attempt + 1) remaining
      ⟨r.attempts + 1, navRetryDelay :: r.delays, r.raised⟩

/-- One full run of the navigation retry loop, starting at attempt 0 with the
hardcoded bound of 3. -/
def navigateWithRetries (ok : Nat → Bool) : RetryTrace :=
  navigateAttempts ok 0 scraperMaxRetries

/-- The with_retry decorator, src/app/utils/retry_handler.py lines 28-53:
for attempt in range(Config.MAX_RETRIES), return func() on success; on
failure sleep Config.RETRY_DELAY * 2 ** attempt unless this was the last
attempt, after which the last exception is re-raised. -/
def with_retry_aux (ok : Nat → Bool) (baseDelay : Nat) : Nat → Nat → RetryTrace
  | _, 0 => ⟨0, [], false⟩
  | attempt, remaining + 1 =>
    if ok attempt then ⟨1, [], false⟩
    else if remaining = 0 then ⟨1, [], true⟩
    else
      let r := with_retry_aux ok baseDelay (attempt + 1) remaining
      ⟨r.attempts + 1, (baseDelay * 2 ^ attempt) :: r.delays, r.raised⟩

/-- One full run of a with_retry-wrapped always-observed function under a
given configuration. -/
def with_retry_run (ok : Nat → Bool) (cfg : Config) : RetryTrace :=
  with_retry_aux ok cfg.RETRY_DELAY 0 cfg.MAX_RETRIES

/-- Abstract loaded DOM of a listing page: each CSS selector string is mapped
to the href values of the anchor elements it matches, in document order.
A selector matching no element maps to the empty list. -/
def Doc : Type := String → List String

/-- The ordered selector strategies of listing discovery,
scraper.py lines 219-224. -/
def listingSelectors : List String :=
  ["a[href*=\"/companies/\"][href*=\"/jobs/\"]",
   ".job-listing a",
   ".JobListing a",
   "article a[href*=\"/jobs/\"]"]

/-- The strategy loop of the JavaScript evaluated by scrape_job_listings
(scraper.py lines 226-234): the first selector whose querySelectorAll is
nonempty ends the loop and its element list is returned; if every selector
matches nothing the result is empty. -/
def firstNonempty (doc : Doc) : List String → List String
  | [] => []
  | s :: rest => if (doc s).isEmpty then firstNonempty doc rest else doc s

/-- The whole evaluated script of scrape_job_listings (scraper.py lines
217-236): the elements of the winning strategy, mapped to hrefs and filtered to
truthy URLs containing /jobs/. -/
def jsExtractJobUrls (doc : Doc) : List String :=
  (firstNonempty doc listingSelectors).filter
    (fun u => !strIsEmpty u && strContains u "/jobs/")

/-- scrape_job_listings, scraper.py lines 204-258, after the page script:
return [] when no URL was found, otherwise keep the string URLs starting
with http and deduplicate them through a set (lines 238-251). -/
def scrape_job_listings (doc : Doc) : List String :=
  let job_urls := jsExtractJobUrls doc
  if job_urls.isEmpty then []
  else dedupFirst (job_urls.filter (fun u => strStartsWith u "http"))

/-- The selector strategies of simple_scraper.py lines 286-300. -/
def simpleScraperSelectors : List String :=
  ["a[href*=\"/companies/\"][href*=\"/jobs/\"]",
   ".job-listing a",
   ".JobListing a",
   "article a[href*=\"/jobs/\"]",
   "a[href*=\"/jobs/\"]",
   "[role=\"job\"] a",
   "[role=\"listitem\"] a",
   "main a",
   "article a",
   "a"]

/-- The per-strategy candidate filter of simple_scraper.py lines 307-312:
truthy URLs containing /jobs/ or /companies/ or ycombinator. -/
def simpleScraperUrlFilter (u : String) : Bool :=
  !strIsEmpty u &&
    (strContains u "/jobs/" || strContains u "/companies/" ||
      strContains u "ycombinator")

/-- The job-URL collection script of simple_scraper.py extract_linkedin_urls
(lines 275-333): unlike scrape_job_listings it does not stop at the first
matching strategy but accumulates the candidates of every selector into one
list, deduplicates it through a Set, and only when no selector contributed
anything falls back to every anchor whose href contains /jobs/. -/
def simpleScraperCollectJobUrls (doc : Doc) : List String :=
  let allJobUrls := simpleScraperSelectors.foldl
    (fun acc sel =>
      let elements := doc sel
      if elements.isEmpty then acc
      else
        let urls := elements.filter simpleScraperUrlFilter
        if urls.isEmpty then acc else acc ++ urls)
    []
  if allJobUrls.isEmpty then
    (doc "a").filter (fun u => !strIsEmpty u && strContains u "/jobs/")
  else dedupFirst allJobUrls

/-- One anchor element of a loaded detail page: its href and whether it lies
inside the node found by the founders-section query
(.Founders, [class*=founder], [class*=Founder], scraper.py line 371). -/
structure DomAnchor where
  href : String
  inFounders : Bool
deriving DecidableEq, Repr

/-- Abstract loaded DOM of one detail page as seen by the script evaluated in
extract_linkedin_urls (scraper.py lines 324-411): all anchor elements in
document order, the trimmed founder names collected from the founder h3
elements (line 345), whether the founders-section query found a node
(line 371), and the title and company texts the safeExtract chains produce
(the per-field selector chains are irrelevant to every claim, so only their
result is carried). -/
structure JobPage where
  anchors : List DomAnchor
  founderNames : List String
  hasFoundersSection : Bool
  title : String
  company : String
deriving DecidableEq, Repr

/-- founderLinks, scraper.py lines 371-373: the hrefs of the anchors inside
the founders section whose href contains linkedin.com; empty when the
founders-section query found nothing. -/
def founderLinks (p : JobPage) : List String :=
  if p.hasFoundersSection then
    (p.anchors.filter
      (fun a => a.inFounders && strContains a.href "linkedin.com")).map
      (fun a => a.href)
  else []

/-- allLinkedinUrls, scraper.py lines 376-378: hrefs of every anchor matched
by a[href*="linkedin.com"], filtered to truthy URLs containing
linkedin.com. -/
def allLinkedinUrls (p : JobPage) : List String :=
  ((p.anchors.filter (fun a => strContains a.href "linkedin.com")).map
      (fun a => a.href)).filter
    (fun url => !strIsEmpty url && strContains url "linkedin.com")

/-- isFounderUrl, scraper.py lines 352-368: a URL is judged a founder profile
when some founder name, lowercased and split at spaces, has a token longer
than two characters occurring in the lowercased URL. -/
def isFounderUrl (url : String) (names : List String) : Bool :=
  if strIsEmpty url || names.isEmpty then false
  else
    names.any fun name =>
      if strIsEmpty name then false
      else
        (splitAtPred (fun c => c == ' ') (lowerList name.data)).any
          fun part => decide (2 < part.length) && infixOfList part (lowerList url.data)

/-- founderLinkedinUrls, scraper.py lines 381-386: the founders-section links
win outright; only when they are empty and at least one founder name was
extracted is the name-based fallback filter applied to allLinkedinUrls. -/
def founderLinkedinUrls (p : JobPage) : List String :=
  let fl := founderLinks p
  if fl.isEmpty && !p.founderNames.isEmpty then
    (allLinkedinUrls p).filter (fun url => isFounderUrl url p.founderNames)
  else fl

/-- companyLinkedinUrls, scraper.py line 389: every harvested URL not
classified founder-associated. -/
def companyLinkedinUrls (p : JobPage) : List String :=
  (allLinkedinUrls p).filter
    (fun url => !((founderLinkedinUrls p).contains url))

/-- The result dictionary of extract_linkedin_urls, scraper.py
lines 413-421 (success) and 436-445 (failure). -/
structure LinkedinResult where
  job_url : String
  title : String
  company : String
  linkedin_urls : List String
  founder_linkedin_urls : List String
  company_linkedin_urls : List String
  founder_names : List String
  errorNote : Option String
deriving DecidableEq, Repr

/-- The success result of extract_linkedin_urls for a loaded page. -/
def mkLinkedinResult (u : String) (p : JobPage) : LinkedinResult :=
  ⟨u, p.title, p.company, allLinkedinUrls p, founderLinkedinUrls p,
    companyLinkedinUrls p, p.founderNames, none⟩

/-- The failure result of extract_linkedin_urls (scraper.py lines 436-445):
empty text fields, empty URL lists, and the error message recorded. -/
def errorLinkedinResult (u msg : String) : LinkedinResult :=
  ⟨u, "", "", [], [], [], [], some msg⟩

/-- Outcome of processing one detail URL in extract_linkedin_urls: the page
loaded and its DOM was read; or an exception was raised inside the protected
block (navigation retries exhausted, selector wait timed out, ...); or
context.new_page() itself raised before the protected block (scraper.py
line 290), which propagates to the caller. -/
inductive ExtractOutcome where
  | ok (p : JobPage)
  | fail (msg : String)
  | pageFail
deriving Repr

/-- extract_linkedin_urls, scraper.py lines 288-447, as a function of the
outcome of its page work: a loaded page yields the extracted dictionary, an
exception inside the protected block yields the error dictionary, and a
page-creation failure raises (none). -/
def extract_linkedin_urls (u : String) : ExtractOutcome → Option LinkedinResult
  | .ok p => some (mkLinkedinResult u p)
  | .fail msg => some (errorLinkedinResult u msg)
  | .pageFail => none

/-- The field dictionary the evaluated script of scrape_job_details returns
on success (scraper.py lines 133-184). -/
structure DetailFields where
  title : String
  company : String
  description : String
  location : String
  salary : String
deriving DecidableEq, Repr

/-- The result dictionary of scrape_job_details: the five text fields, plus
the error key present only on failure (scraper.py lines 193-200). -/
structure JobDetails where
  title : String
  company : String
  description : String
  location : String
  salary : String
  errorNote : Option String
deriving DecidableEq, Repr

/-- Success result of scrape_job_details: the extracted fields, no error. -/
def detailRecord (d : DetailFields) : JobDetails :=
  ⟨d.title, d.company, d.description, d.location, d.salary, none⟩

/-- Failure result of scrape_job_details, scraper.py lines 193-200: every
text field the empty string and the error message recorded. -/
def failedDetailRecord (msg : String) : JobDetails :=
  ⟨"", "", "", "", "", some msg⟩

/-- Outcome of processing one detail URL in scrape_job_details: extraction
succeeded with these fields; or an exception was raised inside the protected
block; or context.new_page() raised before it (scraper.py line 107). -/
inductive DetailOutcome where
  | ok (d : DetailFields)
  | extractFail (msg : String)
  | pageFail
deriving Repr

/-- scrape_job_details, scraper.py lines 105-202, as a function of the
outcome of its page work: it returns the extracted dictionary on success and
the empty-fields error dictionary when the protected block throws, and only
a page-creation failure raises (none). -/
def scrape_job_details : DetailOutcome → Option JobDetails
  | .ok d => some (detailRecord d)
  | .extractFail msg => some (failedDetailRecord msg)
  | .pageFail => none

/-- Environment of one scrape run: whether browser initialization succeeds
(the three acquisitions of browser_context, collapsed to one flag here; the
per-step detail is in SessionEnv below), the DOM of the listing page, and
the outcome of the page work for each detail URL in each of the two
extraction modes. -/
structure ScrapeEnv where
  browserInitOk : Bool
  doc : Doc
  detail : String → DetailOutcome
  jobPage : String → ExtractOutcome

/-- scrape, scraper.py lines 260-286: inside browser_context, discover the
listing URLs and process each one, appending every dictionary that
scrape_job_details returns; a per-URL exception is caught and the loop
continues; any run-level exception (browser initialization included) is
caught and the results accumulated so far — an empty list — are returned. -/
def scrape (env : ScrapeEnv) : List JobDetails :=
  if env.browserInitOk then
    let job_urls := scrape_job_listings env.doc
    if job_urls.isEmpty then []
    else job_urls.filterMap (fun u => scrape_job_details (env.detail u))
  else []

/-- The loop body of scrape_linkedin_urls, scraper.py lines 464-483: extract
the data of the page, keep the dictionary only when its linkedin_urls list is
nonempty, and swallow a raised exception (continue). -/
def linkedinLoopBody (env : ScrapeEnv) (u : String) : Option LinkedinResult :=
  match extract_linkedin_urls u (env.jobPage u) with
  | none => none
  | some data => if data.linkedin_urls.isEmpty then none else some data

/-- scrape_linkedin_urls, scraper.py lines 449-491: inside browser_context,
discover the listing URLs and run the loop body over each; run-level
exceptions return the results accumulated so far ([] when initialization
failed). -/
def scrape_linkedin_urls (env : ScrapeEnv) : List LinkedinResult :=
  if env.browserInitOk then
    let job_urls := scrape_job_listings env.doc
    if job_urls.isEmpty then []
    else job_urls.filterMap (linkedinLoopBody env)
  else []

/-- The direct-job-URL path of the /api/scrape/linkedin route, routes.py
lines 227-230: inside browser_context, extract the one page and keep the
result only when linkedin_urls is nonempty; an exception escaping the block
is caught by the handler of the route and becomes an error response. -/
def scrape_linkedin_direct (env : ScrapeEnv) (url : String) :
    Except String (List LinkedinResult) :=
  if env.browserInitOk then
    match extract_linkedin_urls url (env.jobPage url) with
    | none => Except.error "page creation failed"
    | some result =>
      Except.ok (if result.linkedin_urls.isEmpty then [] else [result])
  else Except.error "browser initialization failed"

/-- The status values of the in-memory job store of routes.py.  The value
pending appears here because the specification names it; the code writes
only the other three. -/
inductive JobStatus where
  | pending
  | in_progress
  | completed
  | error
deriving DecidableEq, Repr

/-- The sequence of status values start_scrape writes for one job id
(routes.py lines 81-132): the record is created with status in_progress
(line 82) and updated exactly once more, to completed when
scraper.scrape returned (lines 100 and 113, for empty and nonempty results
alike) or to error when it raised (line 130). -/
def start_scrape_status_writes (outcome : Except String (List JobDetails)) :
    List JobStatus :=
  [JobStatus.in_progress,
   match outcome with
   | .ok _ => JobStatus.completed
   | .error _ => JobStatus.error]

/-- The stored job record of routes.py (the jobs dictionary entry). -/
structure JobRecord where
  status : JobStatus
  results : Option (List JobDetails)
  errorMessage : Option String
deriving DecidableEq, Repr

/-- The final job record start_scrape leaves for one run, as a function of
what await scraper.scrape(url) did (routes.py lines 93-132). -/
def start_scrape_final (outcome : Except String (List JobDetails)) :
    JobRecord :=
  match outcome with
  | .ok rs => ⟨JobStatus.completed, some rs, none⟩
  | .error e => ⟨JobStatus.error, none, some e⟩

/-- What await scraper.scrape(url) does in the full program: scrape catches
every exception internally (scraper.py lines 282-284) and returns its
accumulated list, so the route always observes a normal return. -/
def start_scrape_outcome (env : ScrapeEnv) : Except String (List JobDetails) :=
  Except.ok (scrape env)

/-- The three resources browser_context acquires (scraper.py lines 41-78). -/
inductive BrowserRes where
  | playwrightRes
  | browserRes
  | contextRes
deriving DecidableEq, Repr

/-- Acquisition and release events of one browser_context run. -/
inductive ResEvent where
  | acquire (r : BrowserRes)
  | release (r : BrowserRes)
deriving DecidableEq, Repr

/-- Environment of one browser_context run: whether each acquisition step
succeeds and whether the body of the with-block runs to completion. -/
structure SessionEnv where
  startOk : Bool
  launchOk : Bool
  newContextOk : Bool
  bodyOk : Bool
deriving DecidableEq, Repr

/-- How control leaves browser_context: normally, or by re-raising. -/
inductive RunExit where
  | normal
  | raised
deriving DecidableEq, Repr

/-- browser_context, scraper.py lines 41-78: the playwright driver, the
browser process and the context are acquired in order inside a try block
(a failing step raises, so later steps are not attempted and the
corresponding fields stay None); the finally block closes, in order,
whichever of context, browser and playwright were set, on every exit path,
whether the body completed or an exception was thrown anywhere between
entry and completion.  The result is the event trace and the exit kind
(close operations are assumed not to throw). -/
def browser_context_trace (env : SessionEnv) : List ResEvent × RunExit :=
  let pw := env.startOk
  let br := pw && env.launchOk
  let cx := br && env.newContextOk
  let acquired :=
    (if pw then [ResEvent.acquire BrowserRes.playwrightRes] else []) ++
    (if br then [ResEvent.acquire BrowserRes.browserRes] else []) ++
    (if cx then [ResEvent.acquire BrowserRes.contextRes] else [])
  let released :=
    (if cx then [ResEvent.release BrowserRes.contextRes] else []) ++
    (if br then [ResEvent.release BrowserRes.browserRes] else []) ++
    (if pw then [ResEvent.release BrowserRes.playwrightRes] else [])
  let exitKind :=
    if pw && br && cx && env.bodyOk then RunExit.normal else RunExit.raised
  (acquired ++ released, exitKind)

/-- close_browser, src/app/scraper/browser.py lines 85-94: quit the driver if
one is held and clear the field; a WebDriverException from quit is caught
and the field is cleared anyway, so the final state does not depend on
whether quit succeeded (the quitOk parameter).  The driver is represented by
an identifier; the second component lists the quit calls performed. -/
def close_browser (quitOk : Bool) : Option Nat → Option Nat × List Nat
  | none => (none, [])
  | some d => (none, [d])

/-- The founder-association rule exactly as the specification words it
(section 4.6): a link is founder-associated when some whitespace-delimited
token of length greater than two from some founder name occurs
case-insensitively as a substring of the URL.  This definition follows the
specification text, not the source, and exists to be compared with
isFounderUrl, which splits names at the space character only. -/
def claimFounderAssociated (url : String) (names : List String) : Bool :=
  names.any fun name =>
    (splitAtPred Char.isWhitespace (lowerList name.data)).any
      fun part => decide (2 < part.length) && infixOfList part (lowerList url.data)

/-- A detail-page URL of the shape discovery looks for. -/
def cexUrl1 : String := "https://www.ycombinator.com/companies/acme/jobs/101"

/-- A second detail-page URL, containing /jobs/ but not /companies/. -/
def cexUrl2 : String := "https://www.ycombinator.com/jobs/202"

/-- Listing-page fixture with a single anchor, matched by the first listing
selector and by no other. -/
def singletonDoc : Doc := fun sel =>
  if sel = "a[href*=\"/companies/\"][href*=\"/jobs/\"]" then [cexUrl1] else []

/-- Listing-page fixture with no anchors at all. -/
def emptyDoc : Doc := fun _ => []

/-- Listing-page fixture for the union counterexample: one anchor with href
cexUrl1 (contains /companies/ and /jobs/) standing alone in the body, and one
anchor with href cexUrl2 (contains /jobs/ only) inside a div of class
job-listing; the page has no main, article, JobListing, role or social
containers.  The first selector therefore matches exactly the first anchor,
.job-listing a matches exactly the second, the generic a[href*="/jobs/"]
and a selectors match both, and every other selector matches nothing. -/
def unionDoc : Doc := fun sel =>
  if sel = "a[href*=\"/companies/\"][href*=\"/jobs/\"]" then [cexUrl1]
  else if sel = ".job-listing a" then [cexUrl2]
  else if sel = "a[href*=\"/jobs/\"]" then [cexUrl1, cexUrl2]
  else if sel = "a" then [cexUrl1, cexUrl2]
  else []

/-- Detail-page fixture: a founders section containing one profile link, and
one extracted founder name. -/
def janePage : JobPage :=
  ⟨[⟨"https://linkedin.com/in/jane", true⟩], ["Jane Doe"], true, "", ""⟩

/-- Detail-page fixture exercising the name-based fallback: no founders
section, one profile link elsewhere on the page, one founder name whose
first token occurs in the link. -/
def fallbackPage : JobPage :=
  ⟨[⟨"https://linkedin.com/in/jane-doe", false⟩], ["Jane Doe"], false, "", ""⟩

/-- Detail-page fixture whose founder name contains a newline between its
two words, as the textContent of an h3 spanning two lines does: the
whitespace-delimited tokens are ana and lee, but splitting at spaces only
yields the single token containing the newline. -/
def newlineNamePage : JobPage :=
  ⟨[⟨"https://linkedin.com/in/ana", false⟩], ["Ana\nLee"], false, "", ""⟩

/-- Run environment in which browser initialization fails. -/
def envInitFail : ScrapeEnv :=
  ⟨false, emptyDoc, fun _ => DetailOutcome.pageFail, fun _ => ExtractOutcome.pageFail⟩

/-- Run environment in which discovery finds one URL and its detail
extraction throws inside the protected block. -/
def envC6 : ScrapeEnv :=
  ⟨true, singletonDoc, fun _ => DetailOutcome.extractFail "timeout",
    fun _ => ExtractOutcome.pageFail⟩

/-- Run environment in which discovery finds one URL and its LinkedIn
extraction succeeds on a page with a founders-section link. -/
def envGoodPage : ScrapeEnv :=
  ⟨true, singletonDoc, fun _ => DetailOutcome.pageFail,
    fun _ => ExtractOutcome.ok janePage⟩

/-- Run environment in which discovery finds one URL and its LinkedIn
extraction throws inside the protected block. -/
def envFailPage : ScrapeEnv :=
  ⟨true, singletonDoc, fun _ => DetailOutcome.pageFail,
    fun _ => ExtractOutcome.fail "timeout"⟩

/-- A string containing a nonempty pattern is itself nonempty. -/
theorem strIsEmpty_false_of_contains (s pat : String)
    (hp : strIsEmpty pat = false) (h : strContains s pat = true) :
    strIsEmpty s = false := by
  cases hd : s.data with
  | nil =>
    exfalso
    rw [strContains, hd] at h
    cases hpd : pat.data with
    | nil => rw [strIsEmpty, hpd] at hp; simp at hp
    | cons c cs => rw [hpd] at h; simp [infixOfList] at h
  | cons c cs => rw [strIsEmpty, hd]; rfl

/-- If every selector of the list matches nothing, the strategy loop returns
the empty element list. -/
theorem firstNonempty_nil_of_all (doc : Doc) :
    ∀ sels : List String, (∀ s ∈ sels, doc s = []) →
      firstNonempty doc sels = [] := by
  intro sels
  induction sels with
  | nil => intro _; rfl
  | cons t ts ih =>
    intro hall
    have ht : doc t = [] := hall t (by simp)
    simp only [firstNonempty, ht, List.isEmpty_nil, if_true]
    exact ih fun s hs => hall s (by simp [hs])

/-- The strategy loop returns the element list of the first selector whose
query is nonempty; selectors after it are not consulted. -/
theorem firstNonempty_append (doc : Doc) (s : String) (post : List String) :
    ∀ pre : List String, (∀ t ∈ pre, doc t = []) → doc s ≠ [] →
      firstNonempty doc (pre ++ s :: post) = doc s := by
  intro pre
  induction pre with
  | nil =>
    intro _ hs
    have : (doc s).isEmpty = false := by
      cases hds : doc s with
      | nil => exact absurd hds hs
      | cons a as => rfl
    simp only [List.nil_append, firstNonempty, this, Bool.false_eq_true, if_false]
  | cons t ts ih =>
    intro hpre hs
    have ht : doc t = [] := hpre t (by simp)
    simp only [List.cons_append, firstNonempty, ht, List.isEmpty_nil, if_true]
    exact ih (fun x hx => hpre x (by simp [hx])) hs

/-- Membership in the deduplication helper: exactly the input elements not
already seen. -/
theorem mem_dedupFirstAux : ∀ (us seen : List String) (a : String),
    a ∈ dedupFirstAux seen us ↔ a ∈ us ∧ a ∉ seen := by
  intro us
  induction us with
  | nil => intro seen a; simp [dedupFirstAux]
  | cons u us ih =>
    intro seen a
    rw [dedupFirstAux]
    by_cases hu : u ∈ seen
    · rw [if_pos (List.elem_iff.mpr hu), ih]
      constructor
      · rintro ⟨h1, h2⟩
        exact ⟨List.mem_cons_of_mem u h1, h2⟩
      · rintro ⟨h1, h2⟩
        rcases List.mem_cons.mp h1 with rfl | h1
        · exact absurd hu h2
        · exact ⟨h1, h2⟩
    · rw [if_neg (fun hc => hu (List.elem_iff.mp hc))]
      rw [List.mem_cons, ih]
      constructor
      · rintro (rfl | ⟨h1, h2⟩)
        · exact ⟨List.mem_cons_self a us, hu⟩
        · exact ⟨List.mem_cons_of_mem u h1, fun hs => h2 (List.mem_cons_of_mem u hs)⟩
      · rintro ⟨h1, h2⟩
        rcases List.mem_cons.mp h1 with rfl | h1
        · exact Or.inl rfl
        · by_cases hau : a = u
          · exact Or.inl hau
          · exact Or.inr ⟨h1, fun hs => by
              rcases List.mem_cons.mp hs with h | h
              · exact hau h
              · exact h2 h⟩

/-- Membership is preserved by first-occurrence deduplication. -/
theorem mem_dedupFirst (l : List String) (a : String) :
    a ∈ dedupFirst l ↔ a ∈ l := by
  rw [dedupFirst, mem_dedupFirstAux]
  simp

/-- The deduplication helper yields a list without duplicates. -/
theorem nodup_dedupFirstAux : ∀ (us seen : List String),
    (dedupFirstAux seen us).Nodup := by
  intro us
  induction us with
  | nil => intro seen; simp [dedupFirstAux]
  | cons u us ih =>
    intro seen
    rw [dedupFirstAux]
    by_cases hu : u ∈ seen
    · rw [if_pos (List.elem_iff.mpr hu)]
      exact ih seen
    · rw [if_neg (fun hc => hu (List.elem_iff.mp hc))]
      refine List.nodup_cons.mpr ⟨?_, ih (u :: seen)⟩
      intro hmem
      exact ((mem_dedupFirstAux us (u :: seen) u).mp hmem).2 (List.mem_cons_self u seen)

/-- First-occurrence deduplication yields a list without duplicates. -/
theorem nodup_dedupFirst (l : List String) : (dedupFirst l).Nodup :=
  nodup_dedupFirstAux l []

/-- Claim C1, counterexample: on a successful run the sequence of status
values written for the job is in_progress followed by completed; the value
pending is never written, so the status field does not visit pending before
in_progress as the claim states. -/
theorem C1_counterexample :
    start_scrape_status_writes (Except.ok ([] : List JobDetails)) =
      [JobStatus.in_progress, JobStatus.completed] ∧
    JobStatus.pending ∉
      start_scrape_status_writes (Except.ok ([] : List JobDetails)) := by
  decide

/-- Claim C1 (amended): for every run, the job record is created with status
in_progress and receives exactly one further status write, to exactly one
terminal state (completed or error); no write returns the job to a prior or
non-terminal state, and pending is never written at all. -/
theorem C1_amended (outcome : Except String (List JobDetails)) :
    ∃ t, (t = JobStatus.completed ∨ t = JobStatus.error) ∧
      start_scrape_status_writes outcome = [JobStatus.in_progress, t] ∧
      JobStatus.pending ∉ start_scrape_status_writes outcome := by
  cases outcome with
  | ok rs => exact ⟨JobStatus.completed, Or.inl rfl, rfl, by
      simp [start_scrape_status_writes]⟩
  | error e => exact ⟨JobStatus.error, Or.inr rfl, rfl, by
      simp [start_scrape_status_writes]⟩

/-- Claim C2, counterexample: in a run whose browser initialization fails,
scrape swallows the exception and returns the empty list, so start_scrape
records the terminal status completed with empty results and no error
message — not the status error the claim requires. -/
theorem C2_counterexample :
    envInitFail.browserInitOk = false ∧
    scrape envInitFail = [] ∧
    start_scrape_final (start_scrape_outcome envInitFail) =
      ⟨JobStatus.completed, some [], none⟩ ∧
    (start_scrape_final (start_scrape_outcome envInitFail)).status ≠
      JobStatus.error := by
  refine ⟨rfl, rfl, rfl, by decide⟩

/-- Claim C2 (amended): a browser initialization failure is fatal to the
scraping work of the run — no discovery or extraction happens and scrape returns
the empty list — but because scrape catches every exception and returns
normally, the job record ends in the terminal status completed with empty
results and no recorded error message, not in status error. -/
theorem C2_amended (env : ScrapeEnv) (h : env.browserInitOk = false) :
    scrape env = [] ∧
    start_scrape_final (start_scrape_outcome env) =
      ⟨JobStatus.completed, some [], none⟩ := by
  have hs : scrape env = [] := by
    rw [scrape, h]
    simp
  exact ⟨hs, by rw [start_scrape_outcome, hs]; rfl⟩

/-- Witness for C2_amended at the concrete failing environment. -/
theorem C2_witness :
    scrape envInitFail = [] ∧
    start_scrape_final (start_scrape_outcome envInitFail) =
      ⟨JobStatus.completed, some [], none⟩ :=
  C2_amended envInitFail rfl

/-- Claim C3, counterexample: when every attempt times out, the navigation
loop makes its 3 attempts and re-raises, but the two observed delays are the
constant 2 seconds each; they are not 2 and 4 as the exponential formula
with the configured base delay predicts, and no positive base delay at all
makes them fit the pattern base, base*2. -/
theorem C3_counterexample :
    navigateWithRetries (fun _ => false) = ⟨3, [2, 2], true⟩ ∧
    (navigateWithRetries (fun _ => false)).delays ≠
      [developmentConfig.RETRY_DELAY * 2 ^ 0,
       developmentConfig.RETRY_DELAY * 2 ^ 1] ∧
    ¬ ∃ b, 0 < b ∧
      (navigateWithRetries (fun _ => false)).delays = [b * 2 ^ 0, b * 2 ^ 1] := by
  refine ⟨by decide, by decide, ?_⟩
  rintro ⟨b, hb, hdelays⟩
  have e : (navigateWithRetries (fun _ => false)).delays = [2, 2] := by decide
  rw [e] at hdelays
  simp only [pow_zero, pow_one, mul_one, List.cons.injEq, and_true] at hdelays
  omega

/-- Claim C3 (amended): when navigation keeps timing out, the loop makes
exactly 3 attempts (the hardcoded bound, equal to the development default
MAX_RETRIES but not to the production value 5) and then surfaces the
timeout; the delay between consecutive attempts is the constant 2 seconds.
The exponential-backoff schedule base_delay * 2 ^ attempt is implemented
only by the with_retry utility, which under the default configuration
sleeps 2 then 4 seconds — and no navigation code path uses with_retry. -/
theorem C3_amended (ok : Nat → Bool) (h : ∀ a, ok a = false) :
    navigateWithRetries ok = ⟨3, [navRetryDelay, navRetryDelay], true⟩ ∧
    with_retry_run ok developmentConfig =
      ⟨3, [developmentConfig.RETRY_DELAY * 2 ^ 0,
           developmentConfig.RETRY_DELAY * 2 ^ 1], true⟩ ∧
    productionConfig.MAX_RETRIES = 5 ∧
    (navigateWithRetries ok).attempts = scraperMaxRetries := by
  have e1 : navigateWithRetries ok = ⟨3, [navRetryDelay, navRetryDelay], true⟩ := by
    rw [navigateWithRetries, scraperMaxRetries]
    simp [navigateAttempts, h 0, h 1, h 2]
  have e2 : with_retry_run ok developmentConfig =
      ⟨3, [developmentConfig.RETRY_DELAY * 2 ^ 0,
           developmentConfig.RETRY_DELAY * 2 ^ 1], true⟩ := by
    rw [with_retry_run, developmentConfig]
    simp [with_retry_aux, h 0, h 1, h 2]
  exact ⟨e1, e2, rfl, by rw [e1]; rfl⟩

/-- Witness for C3_amended at the all-timeouts attempt function. -/
theorem C3_witness :
    navigateWithRetries (fun _ => false) =
      ⟨3, [navRetryDelay, navRetryDelay], true⟩ ∧
    with_retry_run (fun _ => false) developmentConfig =
      ⟨3, [developmentConfig.RETRY_DELAY * 2 ^ 0,
           developmentConfig.RETRY_DELAY * 2 ^ 1], true⟩ :=
  ⟨(C3_amended (fun _ => false) (fun _ => rfl)).1,
   (C3_amended (fun _ => false) (fun _ => rfl)).2.1⟩

/-- Claim C4, counterexample: on the union fixture the first strategy that
yields a candidate is the very first selector, with the single candidate
cexUrl1; yet the collection script of simple_scraper.extract_linkedin_urls
returns both URLs, including cexUrl2, which only later strategies
contributed — it accumulates across strategies instead of stopping at the
first success. -/
theorem C4_counterexample :
    firstNonempty unionDoc simpleScraperSelectors = [cexUrl1] ∧
    unionDoc "a[href*=\"/companies/\"][href*=\"/jobs/\"]" = [cexUrl1] ∧
    simpleScraperCollectJobUrls unionDoc = [cexUrl1, cexUrl2] ∧
    cexUrl2 ≠ cexUrl1 := by
  refine ⟨by decide, by decide, by decide, by decide⟩

/-- Claim C4 (amended): the listing discovery of YCombinatorScraper
(scrape_job_listings, the discovery the API routes run) is first-match-wins:
the first selector whose query is nonempty wins, later selectors are not
consulted, and every returned URL comes from the element list of the winning
selector.  The job-URL collection of simple_scraper.extract_linkedin_urls,
however, deliberately accumulates candidates across all selector strategies
into a union, so its result may contain URLs contributed only by strategies
after the first successful one (see the counterexample). -/
theorem C4_amended (doc : Doc) (pre post : List String) (s : String)
    (hsel : listingSelectors = pre ++ s :: post)
    (hpre : ∀ t ∈ pre, doc t = [])
    (hs : doc s ≠ []) :
    jsExtractJobUrls doc =
      (doc s).filter (fun u => !strIsEmpty u && strContains u "/jobs/") ∧
    ∀ u ∈ jsExtractJobUrls doc, u ∈ doc s := by
  have h1 : firstNonempty doc listingSelectors = doc s := by
    rw [hsel]
    exact firstNonempty_append doc s post pre hpre hs
  have h2 : jsExtractJobUrls doc =
      (doc s).filter (fun u => !strIsEmpty u && strContains u "/jobs/") := by
    rw [jsExtractJobUrls, h1]
  refine ⟨h2, ?_⟩
  intro u hu
  rw [h2] at hu
  exact (List.mem_filter.mp hu).1

/-- Witness for C4_amended at the singleton fixture, whose winning strategy
is the first selector. -/
theorem C4_witness :
    jsExtractJobUrls singletonDoc =
      (singletonDoc "a[href*=\"/companies/\"][href*=\"/jobs/\"]").filter
        (fun u => !strIsEmpty u && strContains u "/jobs/") ∧
    cexUrl1 ∈ singletonDoc "a[href*=\"/companies/\"][href*=\"/jobs/\"]" :=
  ⟨(C4_amended singletonDoc []
      [".job-listing a", ".JobListing a", "article a[href*=\"/jobs/\"]"]
      "a[href*=\"/companies/\"][href*=\"/jobs/\"]" rfl (by simp) (by decide)).1,
   (C4_amended singletonDoc []
      [".job-listing a", ".JobListing a", "article a[href*=\"/jobs/\"]"]
      "a[href*=\"/companies/\"][href*=\"/jobs/\"]" rfl (by simp) (by decide)).2
     cexUrl1 (by decide)⟩

/-- Claim C8: discovery returns a deduplicated list of absolute detail-page
URLs — no URL occurs twice, every returned URL starts with http and contains
/jobs/ — and when every selector strategy matches nothing it returns the
empty list as a normal value, not an error. -/
theorem C8 (doc : Doc) :
    (scrape_job_listings doc).Nodup ∧
    (∀ u ∈ scrape_job_listings doc,
      strStartsWith u "http" = true ∧ strContains u "/jobs/" = true) ∧
    ((∀ s ∈ listingSelectors, doc s = []) → scrape_job_listings doc = []) := by
  refine ⟨?_, ?_, ?_⟩
  · rw [scrape_job_listings]
    by_cases he : (jsExtractJobUrls doc).isEmpty
    · simp [he]
    · simp only [he, Bool.false_eq_true, if_false]
      exact nodup_dedupFirst _
  · intro u hu
    rw [scrape_job_listings] at hu
    by_cases he : (jsExtractJobUrls doc).isEmpty
    · simp [he] at hu
    · simp only [he, Bool.false_eq_true, if_false] at hu
      rw [mem_dedupFirst, List.mem_filter] at hu
      obtain ⟨hjs, hhttp⟩ := hu
      rw [jsExtractJobUrls, List.mem_filter] at hjs
      have := hjs.2
      rw [Bool.and_eq_true] at this
      exact ⟨hhttp, this.2⟩
  · intro hall
    have h1 : firstNonempty doc listingSelectors = [] :=
      firstNonempty_nil_of_all doc listingSelectors hall
    have h2 : jsExtractJobUrls doc = [] := by
      rw [jsExtractJobUrls, h1]
      rfl
    rw [scrape_job_listings, h2]
    rfl

/-- Witness for C8 at the singleton and the empty fixtures. -/
theorem C8_witness :
    (scrape_job_listings singletonDoc).Nodup ∧
    (strStartsWith cexUrl1 "http" = true ∧ strContains cexUrl1 "/jobs/" = true) ∧
    scrape_job_listings emptyDoc = [] :=
  ⟨(C8 singletonDoc).1,
   (C8 singletonDoc).2.1 cexUrl1 (by decide),
   (C8 emptyDoc).2.2 (fun s _ => rfl)⟩

/-- Every link of the founders section also occurs among all harvested
LinkedIn URLs: it is an anchor of the page whose href contains linkedin.com,
which is exactly what the page-wide harvest collects. -/
theorem founderLinks_subset (p : JobPage) :
    ∀ x ∈ founderLinks p, x ∈ allLinkedinUrls p := by
  intro x hx
  rw [founderLinks] at hx
  by_cases hf : p.hasFoundersSection
  · rw [if_pos hf] at hx
    rw [List.mem_map] at hx
    obtain ⟨a, ha, rfl⟩ := hx
    rw [List.mem_filter] at ha
    obtain ⟨hmem, hpred⟩ := ha
    rw [Bool.and_eq_true] at hpred
    have hcont : strContains a.href "linkedin.com" = true := hpred.2
    rw [allLinkedinUrls, List.mem_filter]
    refine ⟨List.mem_map.mpr ⟨a, List.mem_filter.mpr ⟨hmem, hcont⟩, rfl⟩, ?_⟩
    rw [Bool.and_eq_true]
    exact ⟨by rw [Bool.not_eq_true', strIsEmpty_false_of_contains a.href "linkedin.com" rfl hcont],
      hcont⟩
  · rw [if_neg hf] at hx
    exact absurd hx (List.not_mem_nil x)

/-- The founder-classified URLs are always among all harvested URLs, in both
the primary and the fallback branch. -/
theorem founderLinkedinUrls_subset (p : JobPage) :
    ∀ x ∈ founderLinkedinUrls p, x ∈ allLinkedinUrls p := by
  intro x hx
  rw [founderLinkedinUrls] at hx
  by_cases hc : (founderLinks p).isEmpty && !p.founderNames.isEmpty
  · rw [if_pos hc] at hx
    exact (List.mem_filter.mp hx).1
  · rw [if_neg hc] at hx
    exact founderLinks_subset p x hx

/-- Claim C5: for every record that detail extraction produces — from a
loaded page or from a failed extraction — the founder-associated URLs are a
subset of all harvested LinkedIn URLs. -/
theorem C5 (u : String) (o : ExtractOutcome) (r : LinkedinResult)
    (h : extract_linkedin_urls u o = some r) :
    ∀ x ∈ r.founder_linkedin_urls, x ∈ r.linkedin_urls := by
  cases o with
  | ok p =>
    have hr : r = mkLinkedinResult u p := by
      rw [extract_linkedin_urls] at h
      exact (Option.some.injEq _ _ ▸ h).symm
    subst hr
    exact founderLinkedinUrls_subset p
  | fail msg =>
    have hr : r = errorLinkedinResult u msg := by
      rw [extract_linkedin_urls] at h
      exact (Option.some.injEq _ _ ▸ h).symm
    subst hr
    intro x hx
    exact absurd hx (List.not_mem_nil x)
  | pageFail =>
    exact absurd h (by rw [extract_linkedin_urls]; simp)

/-- Witness for C5 at the founders-section fixture. -/
theorem C5_witness :
    "https://linkedin.com/in/jane" ∈ (mkLinkedinResult "u" janePage).linkedin_urls :=
  C5 "u" (ExtractOutcome.ok janePage) (mkLinkedinResult "u" janePage) rfl
    "https://linkedin.com/in/jane" (by decide)

/-- Claim C6: when the whole-page work for a discovered URL throws inside
the protected block, scrape_job_details returns the failed record — every
text field the empty string and the error note populated — instead of
raising, and scrape still processes all URLs before and after it. -/
theorem C6 (env : ScrapeEnv) (pre post : List String) (u msg : String)
    (hinit : env.browserInitOk = true)
    (hurls : scrape_job_listings env.doc = pre ++ u :: post)
    (hdetail : env.detail u = DetailOutcome.extractFail msg) :
    scrape_job_details (env.detail u) = some (failedDetailRecord msg) ∧
    (failedDetailRecord msg).title = "" ∧
    (failedDetailRecord msg).company = "" ∧
    (failedDetailRecord msg).description = "" ∧
    (failedDetailRecord msg).location = "" ∧
    (failedDetailRecord msg).salary = "" ∧
    (failedDetailRecord msg).errorNote = some msg ∧
    scrape env =
      pre.filterMap (fun v => scrape_job_details (env.detail v)) ++
        failedDetailRecord msg ::
          post.filterMap (fun v => scrape_job_details (env.detail v)) := by
  refine ⟨by rw [hdetail]; rfl, rfl, rfl, rfl, rfl, rfl, rfl, ?_⟩
  have hne : (pre ++ u :: post).isEmpty = false := by
    cases pre <;> rfl
  simp only [scrape, hinit, if_true, hurls, hne, Bool.false_eq_true, if_false]
  rw [List.filterMap_append]
  congr 1
  simp only [List.filterMap_cons, hdetail, scrape_job_details]

/-- Witness for C6 at the concrete one-URL environment whose detail
extraction throws. -/
theorem C6_witness :
    scrape envC6 =
      ([] : List String).filterMap (fun v => scrape_job_details (envC6.detail v)) ++
        failedDetailRecord "timeout" ::
          ([] : List String).filterMap (fun v => scrape_job_details (envC6.detail v)) :=
  (C6 envC6 [] [] cexUrl1 "timeout" rfl (by decide) rfl).2.2.2.2.2.2.2

/-- The fallback founder test of the code, characterized: for a nonempty URL and a
nonempty name list, it holds exactly when some name has a token — obtained
by lowercasing and splitting at space characters — longer than two
characters occurring in the lowercased URL. -/
theorem isFounderUrl_iff (url : String) (names : List String)
    (hurl : strIsEmpty url = false) (hnames : names ≠ []) :
    isFounderUrl url names = true ↔
      ∃ name ∈ names,
        ∃ part ∈ splitAtPred (fun c => c == ' ') (lowerList name.data),
          2 < part.length ∧ infixOfList part (lowerList url.data) = true := by
  have hne : names.isEmpty = false := by
    cases names with
    | nil => exact absurd rfl hnames
    | cons a as => rfl
  rw [isFounderUrl, if_neg (by rw [hurl, hne]; simp)]
  rw [List.any_eq_true]
  constructor
  · rintro ⟨name, hname, h⟩
    by_cases he : strIsEmpty name = true
    · rw [if_pos he] at h
      exact absurd h (by simp)
    · rw [if_neg he, List.any_eq_true] at h
      obtain ⟨part, hpart, hp⟩ := h
      rw [Bool.and_eq_true, decide_eq_true_eq] at hp
      exact ⟨name, hname, part, hpart, hp.1, hp.2⟩
  · rintro ⟨name, hname, part, hpart, hlen, hinf⟩
    refine ⟨name, hname, ?_⟩
    have he : strIsEmpty name = false := by
      cases hd : name.data with
      | nil =>
        exfalso
        rw [hd] at hpart
        simp only [lowerList, List.map_nil, splitAtPred, List.mem_singleton] at hpart
        subst hpart
        simp at hlen
      | cons c cs => rw [strIsEmpty, hd]; rfl
    rw [if_neg (by rw [he]; simp), List.any_eq_true]
    refine ⟨part, hpart, ?_⟩
    rw [Bool.and_eq_true, decide_eq_true_eq]
    exact ⟨hlen, hinf⟩

/-- Claim C7, counterexample: the page has no founders-section link and the
single founder name Ana Lee is written with a newline between its words.
The rule as the claim words it — whitespace-delimited tokens — classifies
the link containing ana as founder-associated, but the code splits at space
characters only, extracts the single token containing the newline, finds no
match, and classifies the link company-associated. -/
theorem C7_counterexample :
    founderLinks newlineNamePage = [] ∧
    newlineNamePage.founderNames ≠ [] ∧
    claimFounderAssociated "https://linkedin.com/in/ana"
      newlineNamePage.founderNames = true ∧
    isFounderUrl "https://linkedin.com/in/ana"
      newlineNamePage.founderNames = false ∧
    founderLinkedinUrls newlineNamePage = [] ∧
    companyLinkedinUrls newlineNamePage = ["https://linkedin.com/in/ana"] := by
  refine ⟨by decide, by decide, by decide, by decide, by decide, by decide⟩

/-- Claim C7 (amended): the name-based fallback is applied exactly when the
founders-section rule yields no link and at least one founder name was
extracted; under the fallback a harvested link is founder-associated iff
some token of a founder name — lowercased and split at space characters
(not at arbitrary whitespace) — has length greater than two and occurs in
the lowercased URL; every harvested link not classified founder-associated
is company-associated. -/
theorem C7_amended (p : JobPage) :
    ((founderLinks p ≠ [] ∨ p.founderNames = []) →
      founderLinkedinUrls p = founderLinks p) ∧
    (founderLinks p = [] → p.founderNames ≠ [] →
      ∀ url ∈ allLinkedinUrls p,
        (url ∈ founderLinkedinUrls p ↔
          ∃ name ∈ p.founderNames,
            ∃ part ∈ splitAtPred (fun c => c == ' ') (lowerList name.data),
              2 < part.length ∧ infixOfList part (lowerList url.data) = true)) ∧
    (∀ url, url ∈ companyLinkedinUrls p ↔
      url ∈ allLinkedinUrls p ∧ url ∉ founderLinkedinUrls p) := by
  refine ⟨?_, ?_, ?_⟩
  · intro h
    rw [founderLinkedinUrls]
    rw [if_neg]
    intro hc
    rw [Bool.and_eq_true] at hc
    rcases h with h | h
    · have h1 := hc.1
      cases hfl : founderLinks p with
      | nil => exact h hfl
      | cons a as => rw [hfl] at h1; simp at h1
    · have h2 := hc.2
      rw [h] at h2
      simp at h2
  · intro hfl hnames url hurl
    have hc : ((founderLinks p).isEmpty && !p.founderNames.isEmpty) = true := by
      rw [hfl]
      cases hn : p.founderNames with
      | nil => exact absurd hn hnames
      | cons a as => rfl
    rw [founderLinkedinUrls, if_pos hc, List.mem_filter]
    have hne : strIsEmpty url = false := by
      rw [allLinkedinUrls, List.mem_filter, Bool.and_eq_true] at hurl
      have := hurl.2.1
      rw [Bool.not_eq_true'] at this
      exact this
    constructor
    · rintro ⟨_, hf⟩
      exact (isFounderUrl_iff url p.founderNames hne hnames).mp hf
    · intro hex
      exact ⟨hurl, (isFounderUrl_iff url p.founderNames hne hnames).mpr hex⟩
  · intro url
    constructor
    · intro h
      rw [companyLinkedinUrls, List.mem_filter] at h
      refine ⟨h.1, fun hm => ?_⟩
      have h2 := h.2
      rw [Bool.not_eq_true'] at h2
      have hc2 : (founderLinkedinUrls p).contains url = true := List.elem_iff.mpr hm
      rw [h2] at hc2
      exact Bool.false_ne_true hc2
    · rintro ⟨h1, h2⟩
      rw [companyLinkedinUrls, List.mem_filter]
      refine ⟨h1, ?_⟩
      rw [Bool.not_eq_true']
      by_cases hc : (founderLinkedinUrls p).contains url = true
      · exact absurd (List.elem_iff.mp hc) h2
      · exact Bool.eq_false_iff.mpr hc

/-- Witness for C7_amended at the fallback fixture: the fallback is active,
and the profile URL containing the token jane is classified
founder-associated by the space-token rule. -/
theorem C7_witness :
    "https://linkedin.com/in/jane-doe" ∈ founderLinkedinUrls fallbackPage :=
  ((C7_amended fallbackPage).2.1 rfl (by decide)
      "https://linkedin.com/in/jane-doe" (by decide)).mpr
    ⟨"Jane Doe", by decide, "jane".data, by decide, by decide, by decide⟩

/-- Claim C9: every resource browser_context acquires is released on every
exit path — whatever acquisition steps fail and whether or not the body
throws — and close_browser leaves the driver released, is idempotent (a
second close performs no quit call and changes nothing), and is safe after
a partial open. -/
theorem C9 (env : SessionEnv) (r : BrowserRes) (q : Bool) (d : Option Nat) :
    (ResEvent.acquire r ∈ (browser_context_trace env).1 →
      ResEvent.release r ∈ (browser_context_trace env).1) ∧
    (close_browser q d).1 = none ∧
    close_browser q (close_browser q d).1 = (none, []) := by
  refine ⟨?_, ?_, ?_⟩
  · obtain ⟨s, l, n, b⟩ := env
    cases s <;> cases l <;> cases n <;> cases b <;> cases r <;> decide
  · cases d <;> rfl
  · cases d <;> rfl

/-- Witness for C9: a run whose body throws still releases the context, and
a double close of a held driver ends released with no second quit call. -/
theorem C9_witness :
    ResEvent.release BrowserRes.contextRes ∈
      (browser_context_trace ⟨true, true, true, false⟩).1 ∧
    close_browser true (close_browser true (some 7)).1 = (none, []) :=
  ⟨(C9 ⟨true, true, true, false⟩ BrowserRes.contextRes true (some 7)).1 (by decide),
   (C9 ⟨true, true, true, false⟩ BrowserRes.contextRes true (some 7)).2.2⟩

/-- Claim C10: in both LinkedIn-scrape paths, every record returned has a
nonempty linkedin_urls list, and a detail URL whose extraction failed — its
record carries an empty list — contributes nothing to the results. -/
theorem C10 (env : ScrapeEnv) (url : String) :
    (∀ r ∈ scrape_linkedin_urls env, r.linkedin_urls ≠ []) ∧
    (∀ rs, scrape_linkedin_direct env url = Except.ok rs →
      ∀ r ∈ rs, r.linkedin_urls ≠ []) ∧
    (∀ u msg, env.jobPage u = ExtractOutcome.fail msg →
      linkedinLoopBody env u = none) := by
  refine ⟨?_, ?_, ?_⟩
  · intro r hr
    rw [scrape_linkedin_urls] at hr
    by_cases hinit : env.browserInitOk = true
    · rw [if_pos hinit] at hr
      by_cases he : (scrape_job_listings env.doc).isEmpty
      · simp only [he, if_true] at hr
        exact absurd hr (List.not_mem_nil r)
      · simp only [he, Bool.false_eq_true, if_false] at hr
        rw [List.mem_filterMap] at hr
        obtain ⟨u, _, hbody⟩ := hr
        rw [linkedinLoopBody] at hbody
        cases ho : env.jobPage u with
        | ok p =>
          rw [ho] at hbody
          simp only [extract_linkedin_urls] at hbody
          by_cases hemp : (mkLinkedinResult u p).linkedin_urls.isEmpty
          · rw [if_pos hemp] at hbody
            exact absurd hbody (by simp)
          · rw [if_neg hemp] at hbody
            have : mkLinkedinResult u p = r := by
              exact Option.some.injEq _ _ ▸ hbody
            subst this
            intro hnil
            exact hemp (by rw [hnil]; rfl)
        | fail msg =>
          rw [ho] at hbody
          simp only [extract_linkedin_urls] at hbody
          simp [errorLinkedinResult] at hbody
        | pageFail =>
          rw [ho] at hbody
          simp only [extract_linkedin_urls] at hbody
          exact absurd hbody (by simp)
    · rw [if_neg hinit] at hr
      exact absurd hr (List.not_mem_nil r)
  · intro rs hok r hr
    rw [scrape_linkedin_direct] at hok
    by_cases hinit : env.browserInitOk = true
    · rw [if_pos hinit] at hok
      cases ho : env.jobPage url with
      | ok p =>
        rw [ho] at hok
        simp only [extract_linkedin_urls] at hok
        have hrs : (if (mkLinkedinResult url p).linkedin_urls.isEmpty then
            ([] : List LinkedinResult) else [mkLinkedinResult url p]) = rs := by
          exact Except.ok.injEq _ _ ▸ hok
        by_cases hemp : (mkLinkedinResult url p).linkedin_urls.isEmpty
        · rw [if_pos hemp] at hrs
          subst hrs
          exact absurd hr (List.not_mem_nil r)
        · rw [if_neg hemp] at hrs
          subst hrs
          have : r = mkLinkedinResult url p := List.mem_singleton.mp hr
          subst this
          intro hnil
          exact hemp (by rw [hnil]; rfl)
      | fail msg =>
        rw [ho] at hok
        simp only [extract_linkedin_urls] at hok
        have hrs : (if (errorLinkedinResult url msg).linkedin_urls.isEmpty then
            ([] : List LinkedinResult) else [errorLinkedinResult url msg]) = rs := by
          exact Except.ok.injEq _ _ ▸ hok
        simp only [errorLinkedinResult, List.isEmpty_nil, if_true] at hrs
        rw [← hrs] at hr
        exact absurd hr (List.not_mem_nil r)
      | pageFail =>
        rw [ho] at hok
        simp only [extract_linkedin_urls] at hok
        exact absurd hok (by simp)
    · rw [if_neg hinit] at hok
      exact absurd hok (by simp)
  · intro u msg h
    rw [linkedinLoopBody, h]
    simp [extract_linkedin_urls, errorLinkedinResult]

/-- Witness for C10 at a concrete run: the one record returned for the
founders-section page has a nonempty URL list, and a failed page yields no
contribution from the loop body. -/
theorem C10_witness :
    (mkLinkedinResult cexUrl1 janePage).linkedin_urls ≠ [] ∧
    linkedinLoopBody envFailPage cexUrl1 = none :=
  ⟨(C10 envGoodPage cexUrl1).1 (mkLinkedinResult cexUrl1 janePage) (by decide),
   (C10 envFailPage cexUrl1).2.2 cexUrl1 "timeout" rfl⟩
